import Mathlib

/-!
Verification development for the growthai application (`src/main.py`), a small
Flask app in which a business registers, logs in, records customers, and
generates AI-written promotional campaigns.  Strings are embedded as lists of
characters; the HTTP handlers are embedded as pure functions over an explicit
store state, with the external bcrypt and AI-completion calls abstracted as
function parameters.
-/

/-- Strings of the embedded program, as lists of characters. -/
abbrev Str := List Char

/-- Whitespace characters stripped by the Python `str.strip()` call in
`clean_ai_text` (the ASCII whitespace class). -/
def isPySpace (c : Char) : Bool :=
  c == ' ' || c == '\t' || c == '\n' || c == '\r' || c == '\x0b' || c == '\x0c'

/-- Model of Python `str.strip()`: drop whitespace from both ends. -/
def pyStrip (s : Str) : Str :=
  ((s.dropWhile isPySpace).reverse.dropWhile isPySpace).reverse

/-- Fuel-indexed scan for `pyReplace`: each step consumes at least one
character, so fuel equal to the length of the string suffices. -/
def pyReplaceAux (old new : Str) : Nat → Str → Str
  | _, [] => []
  | 0, s => s
  | fuel + 1, c :: rest =>
    if old.isPrefixOf (c :: rest) then
      new ++ pyReplaceAux old new fuel ((c :: rest).drop old.length)
    else
      c :: pyReplaceAux old new fuel rest

/-- Model of Python `s.replace(old, new)` for a non-empty `old` (the two call
sites in `clean_ai_text` use `"###"` and `"**"`): scan left to right, replacing
non-overlapping occurrences of `old` by `new`. -/
def pyReplace (old new s : Str) : Str :=
  if old = [] then s else pyReplaceAux old new s.length s

/-- Model of the Python expression `text or ""` applied to an optional string:
an absent text becomes the empty string. -/
def orEmpty : Option Str → Str
  | none => []
  | some s => s

/-- Embedding of `clean_ai_text` (src/main.py lines 117 to 118):
`(text or "").replace("###", "").replace("**", "").strip()`.  The argument is
optional because the AI response content can be absent. -/
def clean_ai_text (text : Option Str) : Str :=
  pyStrip (pyReplace "**".data [] (pyReplace "###".data [] (orEmpty text)))

/-- Fuel-indexed scan for `removeAll`, written from the words of the
specification, for comparison with `clean_ai_text`: sanitization "removes all
occurrences" of a marker, scanning left to right and erasing each occurrence
found. -/
def removeAllAux (pat : Str) : Nat → Str → Str
  | _, [] => []
  | 0, s => s
  | fuel + 1, c :: rest =>
    if pat.isPrefixOf (c :: rest) then
      removeAllAux pat fuel ((c :: rest).drop pat.length)
    else
      c :: removeAllAux pat fuel rest

/-- Written from the words of the specification: remove every occurrence of a
non-empty marker from a string. -/
def removeAll (pat s : Str) : Str :=
  if pat = [] then s else removeAllAux pat s.length s

/-- Written from the words of the specification: sanitization removes all
occurrences of `"###"` and of `"**"` and strips surrounding whitespace, with
no other change. -/
def sanitizeSpec (s : Str) : Str :=
  pyStrip (removeAll "**".data (removeAll "###".data s))

/-- Row of the `businesses` table (src/main.py lines 48 to 54). -/
structure BusinessR where
  id : Nat
  business_name : Str
  owner_name : Str
  email : Str
  password : Str
deriving DecidableEq, Repr

/-- Row of the `customers` table (src/main.py lines 56 to 65); `created_at`
is a logical timestamp. -/
structure CustomerR where
  id : Nat
  business_id : Nat
  first_name : Str
  last_name : Str
  email : Str
  phone : Str
  dob : Str
  created_at : Nat
deriving DecidableEq, Repr

/-- Row of the `campaigns` table (src/main.py lines 67 to 75). -/
structure CampaignR where
  id : Nat
  business_id : Nat
  customer_name : Str
  customer_email : Str
  campaign_type : Str
  message : Str
  created_at : Nat
deriving DecidableEq, Repr

/-- The relational store: the tables the claims touch. -/
structure Store where
  businesses : List BusinessR
  customers : List CustomerR
  campaigns : List CampaignR
deriving DecidableEq, Repr

/-- Responses a handler can produce: a redirect, a plain-text body, or a
rendered template page. -/
inductive Resp where
  | redirect (loc : Str)
  | text (body : Str)
  | page (tmpl : Str)
deriving DecidableEq, Repr

/-- Form fields of a POST to `/register`. -/
structure RegisterForm where
  business_name : Str
  owner_name : Str
  email : Str
  password : Str
deriving DecidableEq, Repr

/-- Embedding of the `/register` POST handler (src/main.py lines 147 to 180).
The bcrypt salted hash is abstracted as the function `hashpw`; `newId` models
the autoincrement id the store assigns to the inserted row.  Returns the new
store, the session (`user_id`) and the response. -/
def register (hashpw : Str → Str) (st : Store) (sess : Option Nat)
    (f : RegisterForm) (newId : Nat) : Store × Option Nat × Resp :=
  if f.password.length < 6 then
    (st, sess, Resp.text "Password must be at least 6 characters.".data)
  else
    match st.businesses.find? (fun b => b.email == f.email) with
    | some _ => (st, sess, Resp.text "Email already registered.".data)
    | none =>
      let b : BusinessR :=
        { id := newId
          business_name := f.business_name
          owner_name := f.owner_name
          email := f.email
          password := hashpw f.password }
      ({ st with businesses := st.businesses ++ [b] }, some newId,
        Resp.redirect "/dashboard".data)

/-- Embedding of the `/login` POST handler (src/main.py lines 182 to 202).
The bcrypt verification is abstracted as `checkpw submitted storedHash`.
Returns the session after the request and the response. -/
def login (checkpw : Str → Str → Bool) (st : Store) (sess : Option Nat)
    (email password : Str) : Option Nat × Resp :=
  if sess.isSome then
    (sess, Resp.redirect "/dashboard".data)
  else
    match st.businesses.find? (fun b => b.email == email) with
    | some b =>
      if checkpw password b.password then
        (some b.id, Resp.redirect "/dashboard".data)
      else
        (sess, Resp.text "Invalid Credentials".data)
    | none => (sess, Resp.text "Invalid Credentials".data)

/-- Form fields of a dashboard `generate_campaign` submission
(src/main.py lines 214 to 220). -/
structure GenForm where
  first_name : Str
  last_name : Str
  customer_email : Str
  phone : Str
  dob : Str
  campaign_type : Str
deriving DecidableEq, Repr

/-- The `business_context` string of src/main.py line 233. -/
def businessContext (bname : Str) : Str :=
  "Business name: ".data ++ bname ++ ".".data

/-- Embedding of the prompt selection (src/main.py lines 235 to 240): a
three-way branch on `campaign_type`. -/
def buildPrompt (bname first ctype : Str) : Str :=
  if ctype = "birthday".data then
    businessContext bname ++ " Create a short birthday promotion for ".data
      ++ first ++ " with 30% off. Keep under 80 words.".data
  else if ctype = "loyalty".data then
    businessContext bname ++ " Create a loyalty promotion for ".data
      ++ first ++ ". Keep under 80 words.".data
  else
    businessContext bname ++ " Create a weekend promotion for ".data
      ++ first ++ " with 20% off. Keep under 80 words.".data

/-- The Customer row built and committed at src/main.py lines 222 to 231. -/
def newCustomer (b : BusinessR) (f : GenForm) (custId now : Nat) : CustomerR :=
  { id := custId
    business_id := b.id
    first_name := f.first_name
    last_name := f.last_name
    email := f.customer_email
    phone := f.phone
    dob := f.dob
    created_at := now }

/-- The Campaign row built and committed at src/main.py lines 253 to 262. -/
def newCampaign (b : BusinessR) (f : GenForm) (campId now : Nat)
    (msg : Str) : CampaignR :=
  { id := campId
    business_id := b.id
    customer_name := f.first_name
    customer_email := f.customer_email
    campaign_type := f.campaign_type
    message := msg
    created_at := now }

/-- Embedding of the `generate_campaign` branch of the `/dashboard` POST
handler (src/main.py lines 214 to 265).  The AI chat-completion call is
abstracted as `ai`, mapping the prompt to either an exception message or the
optional content of the first choice.  The Customer row is added and
committed before the AI call; the Campaign row is added and committed only
after a successful call, and an AI exception is caught and turned into the
`promotion_message` text.  Returns the new store and `promotion_message`. -/
def generateCampaign (ai : Str → Except Str (Option Str)) (st : Store)
    (b : BusinessR) (f : GenForm) (custId campId now : Nat) : Store × Str :=
  let st1 : Store := { st with customers := st.customers ++ [newCustomer b f custId now] }
  let prompt := buildPrompt b.business_name f.first_name f.campaign_type
  match ai prompt with
  | Except.error e => (st1, "AI Error: ".data ++ e)
  | Except.ok content =>
    let msg := clean_ai_text content
    ({ st1 with campaigns := st1.campaigns ++ [newCampaign b f campId now msg] },
      msg)

/-- The campaign rows of a business (the `filter_by(business_id=b.id)` scope
used at src/main.py lines 282 to 289). -/
def ownedCampaigns (st : Store) (bid : Nat) : List CampaignR :=
  st.campaigns.filter (fun c => c.business_id == bid)

/-- Embedding of the dashboard campaign query (src/main.py lines 282 to 287):
the campaigns of the business, ordered by `created_at` descending, limited
to 5. -/
def dashboardListing (st : Store) (bid : Nat) : List CampaignR :=
  (List.insertionSort (fun a b => b.created_at ≤ a.created_at)
    (ownedCampaigns st bid)).take 5

/-- Embedding of the dashboard count query (src/main.py line 289): the full
count of the campaigns of the business, not limited. -/
def totalCampaigns (st : Store) (bid : Nat) : Nat :=
  (ownedCampaigns st bid).length

/-- The Customer rows the dashboard handler fetches: none.  The handler
(src/main.py lines 204 to 297) queries only Campaign rows; no Customer query
appears on its read path. -/
def dashboardCustomerRows (_st : Store) (_bid : Nat) : List CustomerR :=
  []

/-- Modelled from the spec: the subscription plan of a business, "free" or
"pro".  In this snapshot of `src/main.py` the `Business` model (lines 48 to
54) has no plan column and no `/upgrade` or `/success` route exists, although
the spec describes them; the billing upgrade flow is therefore modelled from
the words of spec sections 3 and 4.4. -/
inductive Plan where
  | free
  | pro
deriving DecidableEq, Repr

/-- Modelled from the spec: a Business record as the spec's data model gives
it, carrying a plan field ranging over free and pro (the other fields of
`BusinessR` are unaffected by the billing flow and omitted here). -/
structure BillingBusiness where
  id : Nat
  email : Str
  plan : Plan
deriving DecidableEq, Repr

/-- Modelled from the spec: the upgrade-success callback, which "flips the
business's plan to pro unconditionally" for the current session's business
(spec section 4.4, `mark_upgraded(business_id)`). -/
def mark_upgraded (businesses : List BillingBusiness) (bid : Nat) :
    List BillingBusiness :=
  businesses.map (fun b => if b.id = bid then { b with plan := Plan.pro } else b)

/-!
Helper lemmas.
-/

lemma pyReplaceAux_nil_new (old : Str) :
    ∀ fuel s, pyReplaceAux old [] fuel s = removeAllAux old fuel s := by
  intro fuel
  induction fuel with
  | zero => intro s; cases s <;> simp [pyReplaceAux, removeAllAux]
  | succ n ih =>
    intro s
    cases s with
    | nil => simp [pyReplaceAux, removeAllAux]
    | cons c rest =>
      by_cases hp : old.isPrefixOf (c :: rest) <;>
        simp [pyReplaceAux, removeAllAux, hp, ih]

lemma pyReplace_nil_new (old s : Str) :
    pyReplace old [] s = removeAll old s := by
  by_cases h : old = [] <;> simp [pyReplace, removeAll, h, pyReplaceAux_nil_new]

lemma infixAppendRight {x m : Str} (l : Str) (h : x <:+: m) : x <:+: l ++ m := by
  obtain ⟨s, t, rfl⟩ := h
  exact ⟨l ++ s, t, by simp⟩

lemma infixAppendLeft {x m : Str} (r : Str) (h : x <:+: m) : x <:+: m ++ r := by
  obtain ⟨s, t, rfl⟩ := h
  exact ⟨s, t ++ r, by simp⟩

/-!
The claims.
-/

/-- C10: `clean_ai_text` is total on a missing completion: a `None` response
text is mapped by the `text or ""` guard to the empty string, so a missing
completion yields the empty message rather than an exception. -/
theorem clean_ai_text_none_eq_empty : clean_ai_text none = [] := by decide

/-- C4: sanitization removes all occurrences of `"###"` and of `"**"` and
strips surrounding whitespace, with no other change: `clean_ai_text` agrees
on every input with `sanitizeSpec`, the sanitizer written from the words of
the spec, and the input `"**Hi** ###"` sanitizes to `"Hi"`. -/
theorem clean_ai_text_matches_spec (s : Str) :
    clean_ai_text (some s) = sanitizeSpec s ∧
    clean_ai_text (some "**Hi** ###".data) = "Hi".data := by
  constructor
  · simp [clean_ai_text, sanitizeSpec, orEmpty, pyReplace_nil_new]
  · decide

/-- C5: prompt selection is a three-way branch on `campaign_type`:
`"birthday"` yields a prompt containing `"30%"`, `"loyalty"` a prompt
containing `"loyalty"`, any other value a prompt containing `"20%"`, and
every prompt contains the business name. -/
theorem prompt_three_way_branch (bname first ctype : Str) :
    bname <:+: buildPrompt bname first ctype ∧
    (if ctype = "birthday".data then
      "30%".data <:+: buildPrompt bname first ctype
    else if ctype = "loyalty".data then
      "loyalty".data <:+: buildPrompt bname first ctype
    else
      "20%".data <:+: buildPrompt bname first ctype) := by
  unfold buildPrompt businessContext
  split_ifs with h1 h2
  · refine ⟨?_, ?_⟩
    · apply infixAppendLeft
      apply infixAppendLeft
      apply infixAppendLeft
      apply infixAppendLeft
      exact ⟨"Business name: ".data, [], by simp⟩
    · apply infixAppendRight
      decide
  · refine ⟨?_, ?_⟩
    · apply infixAppendLeft
      apply infixAppendLeft
      apply infixAppendLeft
      apply infixAppendLeft
      exact ⟨"Business name: ".data, [], by simp⟩
    · apply infixAppendLeft
      apply infixAppendLeft
      apply infixAppendRight
      decide
  · refine ⟨?_, ?_⟩
    · apply infixAppendLeft
      apply infixAppendLeft
      apply infixAppendLeft
      apply infixAppendLeft
      exact ⟨"Business name: ".data, [], by simp⟩
    · apply infixAppendRight
      decide

/-- C2: the upgrade-success callback (modelled from the spec, which the code
of this snapshot does not contain) sets the plan of the session's business to
pro, is idempotent, and the plan field ranges over free and pro. -/
theorem upgrade_callback_pro_idempotent (bs : List BillingBusiness) (bid : Nat) :
    (∀ b ∈ mark_upgraded bs bid, b.id = bid → b.plan = Plan.pro) ∧
    mark_upgraded (mark_upgraded bs bid) bid = mark_upgraded bs bid ∧
    (∀ p : Plan, p = Plan.free ∨ p = Plan.pro) := by
  refine ⟨?_, ?_, ?_⟩
  · intro b hb hid
    simp only [mark_upgraded, List.mem_map] at hb
    obtain ⟨a, _, rfl⟩ := hb
    by_cases h : a.id = bid
    · simp [h]
    · simp only [if_neg h] at hid ⊢
      exact absurd hid h
  · induction bs with
    | nil => simp [mark_upgraded]
    | cons a l ih =>
      simp only [mark_upgraded, List.map_cons, List.map_map] at ih ⊢
      refine congrArg₂ List.cons ?_ ih
      by_cases h : a.id = bid <;> simp [h]
  · intro p
    cases p
    · exact Or.inl rfl
    · exact Or.inr rfl

/-- C6: a registration creates a new Business row exactly when the password
has length at least 6 and the email is not already present; otherwise the
store is unchanged and a validation error text is returned. -/
theorem register_creates_iff (hashpw : Str → Str) (st : Store)
    (sess : Option Nat) (f : RegisterForm) (newId : Nat) :
    ((∃ nb, (register hashpw st sess f newId).1.businesses
        = st.businesses ++ [nb]) ↔
      (6 ≤ f.password.length ∧ ∀ b ∈ st.businesses, b.email ≠ f.email)) ∧
    (¬(6 ≤ f.password.length ∧ ∀ b ∈ st.businesses, b.email ≠ f.email) →
      (register hashpw st sess f newId).1 = st ∧
      ((register hashpw st sess f newId).2.2
          = Resp.text "Password must be at least 6 characters.".data ∨
        (register hashpw st sess f newId).2.2
          = Resp.text "Email already registered.".data)) := by
  by_cases hlen : f.password.length < 6
  · have hnot : ¬(6 ≤ f.password.length ∧ ∀ b ∈ st.businesses, b.email ≠ f.email) := by
      intro hc
      omega
    refine ⟨?_, ?_⟩
    · simp only [register, if_pos hlen]
      constructor
      · rintro ⟨nb, hnb⟩
        have := congrArg List.length hnb
        simp at this
      · intro hc
        omega
    · intro _
      simp [register, if_pos hlen]
  · cases hfind : st.businesses.find? (fun b => b.email == f.email) with
    | some b =>
      have hb : b ∈ st.businesses ∧ b.email = f.email := by
        have h1 := List.mem_of_find?_eq_some hfind
        have h2 := List.find?_some hfind
        simp only [beq_iff_eq] at h2
        exact ⟨h1, h2⟩
      have hnot : ¬(6 ≤ f.password.length ∧ ∀ x ∈ st.businesses, x.email ≠ f.email) := by
        rintro ⟨-, hall⟩
        exact hall b hb.1 hb.2
      refine ⟨?_, ?_⟩
      · simp only [register, if_neg hlen, hfind]
        constructor
        · rintro ⟨nb, hnb⟩
          have := congrArg List.length hnb
          simp at this
        · intro hc
          exact absurd hc hnot
      · intro _
        simp [register, if_neg hlen, hfind]
    | none =>
      have hall : ∀ x ∈ st.businesses, x.email ≠ f.email := by
        intro x hx
        have := List.find?_eq_none.mp hfind x hx
        simpa using this
      refine ⟨?_, ?_⟩
      · simp only [register, if_neg hlen, hfind]
        constructor
        · intro _
          exact ⟨by omega, hall⟩
        · intro _
          exact ⟨_, rfl⟩
      · intro hc
        exact absurd ⟨by omega, hall⟩ hc

/-- C9: login with correct credentials sets the session to the id of the
business registered under the submitted email; a wrong password on an
existing email and an unknown email both return the identical generic
`Invalid Credentials` text, with no session established in either case. -/
theorem login_correct_and_generic_failure
    (checkpw : Str → Str → Bool) (st : Store) (b : BusinessR)
    (goodEmail goodPw badPw unknownEmail : Str)
    (hfind : st.businesses.find? (fun x => x.email == goodEmail) = some b)
    (hgood : checkpw goodPw b.password = true)
    (hbad : checkpw badPw b.password = false)
    (hunknown : st.businesses.find? (fun x => x.email == unknownEmail) = none) :
    login checkpw st none goodEmail goodPw
        = (some b.id, Resp.redirect "/dashboard".data) ∧
    login checkpw st none goodEmail badPw
        = (none, Resp.text "Invalid Credentials".data) ∧
    login checkpw st none unknownEmail goodPw
        = (none, Resp.text "Invalid Credentials".data) ∧
    (login checkpw st none goodEmail badPw).2
        = (login checkpw st none unknownEmail goodPw).2 := by
  simp [login, hfind, hgood, hbad, hunknown]

/-- Witness for C9 at a concrete one-business store, with equality as the
hash-verification function. -/
theorem login_correct_and_generic_failure_witness :
    login (fun p h => p == h)
        (Store.mk [BusinessR.mk 7 "Acme".data "Ann".data "a@x".data "secret".data] [] [])
        none "a@x".data "secret".data
      = (some 7, Resp.redirect "/dashboard".data) ∧
    login (fun p h => p == h)
        (Store.mk [BusinessR.mk 7 "Acme".data "Ann".data "a@x".data "secret".data] [] [])
        none "a@x".data "wrong".data
      = (none, Resp.text "Invalid Credentials".data) ∧
    login (fun p h => p == h)
        (Store.mk [BusinessR.mk 7 "Acme".data "Ann".data "a@x".data "secret".data] [] [])
        none "b@x".data "secret".data
      = (none, Resp.text "Invalid Credentials".data) := by
  have h := login_correct_and_generic_failure (fun p h => p == h)
    (Store.mk [BusinessR.mk 7 "Acme".data "Ann".data "a@x".data "secret".data] [] [])
    (BusinessR.mk 7 "Acme".data "Ann".data "a@x".data "secret".data)
    "a@x".data "secret".data "wrong".data "b@x".data
    (by decide) (by decide) (by decide) (by decide)
  exact ⟨h.1, h.2.1, h.2.2.1⟩

/-- C1 counterexample: the claim says a failing submission records neither
row, but the handler commits the Customer row before the AI call.  At an
empty store, a submission whose AI call raises leaves one Customer row and
no Campaign row, and its response is the failure text. -/
theorem customer_row_persisted_on_ai_failure :
    (generateCampaign (fun _ => Except.error "boom".data)
        (Store.mk [] [] [])
        (BusinessR.mk 1 "Acme".data "Ann".data "a@x".data "h".data)
        (GenForm.mk "Bo".data [] "c@x".data [] [] "birthday".data)
        1 1 0).1.customers.length = 1 ∧
    (generateCampaign (fun _ => Except.error "boom".data)
        (Store.mk [] [] [])
        (BusinessR.mk 1 "Acme".data "Ann".data "a@x".data "h".data)
        (GenForm.mk "Bo".data [] "c@x".data [] [] "birthday".data)
        1 1 0).1.campaigns.length = 0 ∧
    (generateCampaign (fun _ => Except.error "boom".data)
        (Store.mk [] [] [])
        (BusinessR.mk 1 "Acme".data "Ann".data "a@x".data "h".data)
        (GenForm.mk "Bo".data [] "c@x".data [] [] "birthday".data)
        1 1 0).2 = "AI Error: boom".data := by
  refine ⟨rfl, rfl, ?_⟩
  decide

/-- C1 as amended: a successful submission persists exactly one Customer row
and one Campaign row, but not as an atomic pair: the Customer row is
committed before the AI call, so a failed submission still records the
Customer row while adding no Campaign row. -/
theorem campaign_generation_persistence (ai : Str → Except Str (Option Str))
    (st : Store) (b : BusinessR) (f : GenForm) (custId campId now : Nat) :
    (∀ e, ai (buildPrompt b.business_name f.first_name f.campaign_type)
        = Except.error e →
      (generateCampaign ai st b f custId campId now).1.customers
          = st.customers ++ [newCustomer b f custId now] ∧
      (generateCampaign ai st b f custId campId now).1.campaigns
          = st.campaigns) ∧
    (∀ content, ai (buildPrompt b.business_name f.first_name f.campaign_type)
        = Except.ok content →
      (generateCampaign ai st b f custId campId now).1.customers
          = st.customers ++ [newCustomer b f custId now] ∧
      (generateCampaign ai st b f custId campId now).1.campaigns
          = st.campaigns ++ [newCampaign b f campId now (clean_ai_text content)]) := by
  constructor
  · intro e he
    simp [generateCampaign, he]
  · intro content hc
    simp [generateCampaign, hc]

/-- C3: when the AI call raises, no Campaign row is added and the
user-visible message is the text `AI Error: ` followed by the error text, so
it starts with the prefix `AI Error:`. -/
theorem ai_failure_no_campaign_and_message (ai : Str → Except Str (Option Str))
    (st : Store) (b : BusinessR) (f : GenForm) (custId campId now : Nat)
    (e : Str)
    (herr : ai (buildPrompt b.business_name f.first_name f.campaign_type)
        = Except.error e) :
    (generateCampaign ai st b f custId campId now).1.campaigns = st.campaigns ∧
    (generateCampaign ai st b f custId campId now).2 = "AI Error: ".data ++ e ∧
    "AI Error:".data <+: (generateCampaign ai st b f custId campId now).2 := by
  refine ⟨?_, ?_, ?_⟩
  · simp [generateCampaign, herr]
  · simp [generateCampaign, herr]
  · simp only [generateCampaign, herr]
    exact ⟨' ' :: e, rfl⟩

/-- Witness for C3 at a concrete store and a concretely failing AI call. -/
theorem ai_failure_no_campaign_and_message_witness :
    (generateCampaign (fun _ => Except.error "down".data)
        (Store.mk [] [] [])
        (BusinessR.mk 2 "Cafe".data "Cy".data "c@x".data "h".data)
        (GenForm.mk "Di".data [] "d@x".data [] [] "loyalty".data)
        3 4 5).1.campaigns = (Store.mk [] [] []).campaigns ∧
    (generateCampaign (fun _ => Except.error "down".data)
        (Store.mk [] [] [])
        (BusinessR.mk 2 "Cafe".data "Cy".data "c@x".data "h".data)
        (GenForm.mk "Di".data [] "d@x".data [] [] "loyalty".data)
        3 4 5).2 = "AI Error: ".data ++ "down".data ∧
    "AI Error:".data <+: (generateCampaign (fun _ => Except.error "down".data)
        (Store.mk [] [] [])
        (BusinessR.mk 2 "Cafe".data "Cy".data "c@x".data "h".data)
        (GenForm.mk "Di".data [] "d@x".data [] [] "loyalty".data)
        3 4 5).2 :=
  ai_failure_no_campaign_and_message (fun _ => Except.error "down".data)
    (Store.mk [] [] [])
    (BusinessR.mk 2 "Cafe".data "Cy".data "c@x".data "h".data)
    (GenForm.mk "Di".data [] "d@x".data [] [] "loyalty".data)
    3 4 5 "down".data rfl

instance : IsTotal CampaignR (fun a b => b.created_at ≤ a.created_at) :=
  ⟨fun a b => Nat.le_total b.created_at a.created_at⟩

instance : IsTrans CampaignR (fun a b => b.created_at ≤ a.created_at) :=
  ⟨fun _ _ _ hab hbc => Nat.le_trans hbc hab⟩

/-- C7: the dashboard listing holds at most 5 rows, is ordered newest-first
on `created_at`, and the displayed total is the full per-business campaign
count, independent of the 5-row display limit. -/
theorem dashboard_listing_limit_order_count (st : Store) (bid : Nat) :
    (dashboardListing st bid).length ≤ 5 ∧
    (dashboardListing st bid).Pairwise (fun a b => b.created_at ≤ a.created_at) ∧
    totalCampaigns st bid = st.campaigns.countP (fun c => c.business_id == bid) := by
  refine ⟨?_, ?_, ?_⟩
  · exact List.length_take_le 5 _
  · have hs := List.sorted_insertionSort
      (fun a b : CampaignR => b.created_at ≤ a.created_at) (ownedCampaigns st bid)
    exact List.Pairwise.sublist (List.take_sublist 5 _) hs
  · simp [totalCampaigns, ownedCampaigns, List.countP_eq_length_filter]

/-- C8: every row the dashboard query path returns belongs to the
authenticated business: each listed Campaign carries its business id, and
the handler fetches no Customer rows at all. -/
theorem dashboard_rows_owned (st : Store) (bid : Nat) :
    (∀ c ∈ dashboardListing st bid, c.business_id = bid) ∧
    (∀ cu ∈ dashboardCustomerRows st bid, cu.business_id = bid) := by
  constructor
  · intro c hc
    have h1 : c ∈ List.insertionSort
        (fun a b : CampaignR => b.created_at ≤ a.created_at)
        (ownedCampaigns st bid) :=
      (List.take_sublist 5 _).subset hc
    have h2 : c ∈ ownedCampaigns st bid :=
      (List.perm_insertionSort
        (fun a b : CampaignR => b.created_at ≤ a.created_at)
        (ownedCampaigns st bid)).mem_iff.mp h1
    have h3 := List.of_mem_filter h2
    simpa using h3
  · intro cu hcu
    simp [dashboardCustomerRows] at hcu
